import Mathlib

/-!
Verification development for the crypto dashboard core: the market-data
refresh orchestrator and the multi-factor recommendation engine found in
the dashboard component.  Numbers are modelled as exact rationals, the
per-feed React state as explicit values threaded through step functions,
and each fetch as a sum type of its observable outcomes.  Percentage
strings in `reasoning` are rendered with integer rounding where the
source uses fixed-point display formatting.
-/

namespace CryptoDash

/-- Summary counts of the news-analysis response (`result.data.summary`). -/
structure NewsSummary where
  positive_count : ℕ
  negative_count : ℕ
  neutral_count : ℕ
deriving DecidableEq

/-- News-analysis payload consumed by the recommendation calculation
(`newsAnalysisData` with its `total` and `summary`). -/
structure NewsAnalysisData where
  total : ℕ
  summary : NewsSummary
deriving DecidableEq

/-- The four per-indicator votes on `tradingSignals.signals`. -/
structure SignalVotes where
  rsi_signal : String
  macd_signal : String
  moving_average_signal : String
  bollinger_signal : String
deriving DecidableEq

/-- One entry of `forecastData.predictions`. -/
structure Prediction where
  minutes_ahead : ℚ
  predicted_price : ℚ
deriving DecidableEq

/-- Forecast payload (`forecastData`): the prediction list actually read by
the recommendation calculation. -/
structure ForecastData where
  predictions : List Prediction
deriving DecidableEq

/-- Current-coin snapshot (`cryptoData`) as assembled by `fetchMinIOData`;
the recommendation calculation reads `current_price`. -/
structure CryptoData where
  id : String
  symbol : String
  name : String
  current_price : ℚ
  market_cap : ℚ
  total_volume : ℚ
  high_24h : ℚ
  low_24h : ℚ
  last_updated : String
deriving DecidableEq

/-- Recommendation action literals `'BUY' | 'SELL' | 'NEUTRAL'`. -/
inductive Action where
  | BUY
  | SELL
  | NEUTRAL
deriving DecidableEq

/-- The `breakdown` record of the recommendation state (each field is the
rounded sub-score). -/
structure Breakdown where
  news : ℤ
  technical : ℤ
  forecast : ℤ
deriving DecidableEq

/-- The recommendation record passed to `setRecommendation`. -/
structure Recommendation where
  action : Action
  confidence : ℤ
  breakdown : Breakdown
  reasoning : List String
deriving DecidableEq

/-- News sentiment sub-score and reasoning, from the first block of
`calculateRecommendation`: guarded by `newsAnalysisData && total > 0`;
ratios of positive/negative counts over the total select one of three
bands, otherwise the neutral default 50 with its reason string. -/
def computeNewsScore (newsAnalysisData : Option NewsAnalysisData) : ℚ × List String :=
  match newsAnalysisData with
  | some nd =>
    if 0 < nd.total then
      let positiveRatio : ℚ := (nd.summary.positive_count : ℚ) / (nd.total : ℚ)
      let negativeRatio : ℚ := (nd.summary.negative_count : ℚ) / (nd.total : ℚ)
      if positiveRatio > 6/10 then
        (75 + positiveRatio * 25,
          [toString (round (positiveRatio * 100)) ++ "% positive news sentiment"])
      else if negativeRatio > 6/10 then
        (25 - negativeRatio * 25,
          [toString (round (negativeRatio * 100)) ++ "% negative news sentiment"])
      else
        (40 + (positiveRatio - negativeRatio) * 20,
          ["Mixed news sentiment (" ++ toString (round (positiveRatio * 100)) ++
            "% positive, " ++ toString (round (negativeRatio * 100)) ++ "% negative)"])
    else (50, ["No recent news data available"])
  | none => (50, ["No recent news data available"])

/-- Count of `'BUY'` votes among the four indicator signals. -/
def bullishSignals (signals : SignalVotes) : ℕ :=
  (if signals.rsi_signal = "BUY" then 1 else 0) +
  (if signals.macd_signal = "BUY" then 1 else 0) +
  (if signals.moving_average_signal = "BUY" then 1 else 0) +
  (if signals.bollinger_signal = "BUY" then 1 else 0)

/-- Count of `'SELL'` votes among the four indicator signals. -/
def bearishSignals (signals : SignalVotes) : ℕ :=
  (if signals.rsi_signal = "SELL" then 1 else 0) +
  (if signals.macd_signal = "SELL" then 1 else 0) +
  (if signals.moving_average_signal = "SELL" then 1 else 0) +
  (if signals.bollinger_signal = "SELL" then 1 else 0)

/-- Technical analysis sub-score, from the second block of
`calculateRecommendation`: the bullish fraction of the non-neutral votes
scaled to 100, else the neutral default 50. -/
def computeTechnicalScore (tradingSignals : Option SignalVotes) : ℚ × List String :=
  match tradingSignals with
  | some signals =>
    if 0 < bullishSignals signals + bearishSignals signals then
      (((bullishSignals signals : ℚ) /
          ((bullishSignals signals + bearishSignals signals : ℕ) : ℚ)) * 100,
        [toString (bullishSignals signals) ++ "/" ++
          toString (bullishSignals signals + bearishSignals signals) ++
          " technical indicators bullish"])
    else (50, ["Technical indicators neutral"])
  | none => (50, ["No technical analysis data available"])

/-- Forecast sub-score, from the third block of `calculateRecommendation`:
the first prediction within a 24h horizon gives a percentage change
against the current price, banded into three cases; absent data gives the
neutral default 50. -/
def computeForecastScore (forecastData : Option ForecastData)
    (cryptoData : Option CryptoData) : ℚ × List String :=
  match forecastData, cryptoData with
  | some fd, some cd =>
    match fd.predictions.find? (fun p => decide (p.minutes_ahead ≤ 1440)) with
    | some shortTermPrediction =>
      let changePercent : ℚ :=
        (shortTermPrediction.predicted_price - cd.current_price) / cd.current_price * 100
      if changePercent > 5 then
        (75 + min changePercent 25,
          ["Forecast predicts +" ++ toString (round changePercent) ++ "% price increase"])
      else if changePercent < -5 then
        (25 + max changePercent (-25),
          ["Forecast predicts " ++ toString (round changePercent) ++ "% price decrease"])
      else
        (50 + changePercent * 5,
          ["Forecast predicts " ++ toString (round changePercent) ++ "% price change"])
    | none => (50, ["No short-term forecast available"])
  | _, _ => (50, ["No forecast data available"])

/-- Weighted overall score `newsScore*0.3 + technicalScore*0.4 + forecastScore*0.3`. -/
def overallScore (newsAnalysisData : Option NewsAnalysisData)
    (tradingSignals : Option SignalVotes) (forecastData : Option ForecastData)
    (cryptoData : Option CryptoData) : ℚ :=
  (computeNewsScore newsAnalysisData).1 * (3/10) +
    (computeTechnicalScore tradingSignals).1 * (4/10) +
    (computeForecastScore forecastData cryptoData).1 * (3/10)

/-- Combined reasoning list `[...newsReasoning, ...technicalReasoning, ...forecastReasoning]`. -/
def combinedReasoning (newsAnalysisData : Option NewsAnalysisData)
    (tradingSignals : Option SignalVotes) (forecastData : Option ForecastData)
    (cryptoData : Option CryptoData) : List String :=
  (computeNewsScore newsAnalysisData).2 ++ (computeTechnicalScore tradingSignals).2 ++
    (computeForecastScore forecastData cryptoData).2

/-- Rounded breakdown record built by `setRecommendation`. -/
def roundedBreakdown (newsAnalysisData : Option NewsAnalysisData)
    (tradingSignals : Option SignalVotes) (forecastData : Option ForecastData)
    (cryptoData : Option CryptoData) : Breakdown :=
  { news := round (computeNewsScore newsAnalysisData).1
    technical := round (computeTechnicalScore tradingSignals).1
    forecast := round (computeForecastScore forecastData cryptoData).1 }

/-- Final action selection and confidence of `calculateRecommendation`:
first-match thresholds on the overall score, then rounding at the
`setRecommendation` boundary.  `round` is `Math.round` (half toward
positive infinity). -/
def calculateRecommendation (newsAnalysisData : Option NewsAnalysisData)
    (tradingSignals : Option SignalVotes) (forecastData : Option ForecastData)
    (cryptoData : Option CryptoData) : Recommendation :=
  if overallScore newsAnalysisData tradingSignals forecastData cryptoData ≥ 70 then
    { action := Action.BUY
      confidence :=
        round (min (overallScore newsAnalysisData tradingSignals forecastData cryptoData) 95)
      breakdown := roundedBreakdown newsAnalysisData tradingSignals forecastData cryptoData
      reasoning := combinedReasoning newsAnalysisData tradingSignals forecastData cryptoData }
  else if overallScore newsAnalysisData tradingSignals forecastData cryptoData ≤ 30 then
    { action := Action.SELL
      confidence :=
        round (min (100 - overallScore newsAnalysisData tradingSignals forecastData cryptoData) 95)
      breakdown := roundedBreakdown newsAnalysisData tradingSignals forecastData cryptoData
      reasoning := combinedReasoning newsAnalysisData tradingSignals forecastData cryptoData }
  else
    { action := Action.NEUTRAL
      confidence :=
        round (|50 - overallScore newsAnalysisData tradingSignals forecastData cryptoData| * 2)
      breakdown := roundedBreakdown newsAnalysisData tradingSignals forecastData cryptoData
      reasoning := combinedReasoning newsAnalysisData tradingSignals forecastData cryptoData }

/-- Validity of news counts: the positive and negative article counts do
not exceed the total, when a payload is present. -/
def ValidNewsInput (newsAnalysisData : Option NewsAnalysisData) : Prop :=
  ∀ nd, newsAnalysisData = some nd →
    nd.summary.positive_count ≤ nd.total ∧ nd.summary.negative_count ≤ nd.total

/-- Validity of the current snapshot: a present snapshot has a positive
price, ruling out the division-by-zero percentage the floating-point
source would turn into a non-finite value. -/
def ValidSnapshotInput (cryptoData : Option CryptoData) : Prop :=
  ∀ cd, cryptoData = some cd → 0 < cd.current_price

/-- One historical point of the per-coin feed behind `/api/crypto`, with
the fields read by `fetchTreemapData`. -/
structure CoinPoint where
  id : String
  symbol : String
  name : String
  market_cap : ℚ
  price_usd : ℚ
  last_updated : String
deriving DecidableEq

/-- One ranked entry of the treemap universe. -/
structure TreemapEntry where
  id : String
  symbol : String
  name : String
  market_cap : ℚ
  current_price : ℚ
  price_change_percentage_24h : ℚ
  last_updated : String
deriving DecidableEq

/-- Observable outcome of one per-coin fetch inside `fetchTreemapData`:
either the request threw (caught per coin), or a response arrived with a
success flag and a historical data array. -/
inductive CoinFetchOutcome where
  | failure
  | response (success : Bool) (data : List CoinPoint)
deriving DecidableEq

/-- Per-coin mapping inside `fetchTreemapData`: a thrown fetch or a
response lacking `success` or at least 2 points yields `null`; otherwise
the entry is built from the last two points of the array, with the 24h
change `(latest.price_usd - previous.price_usd) / previous.price_usd * 100`. -/
def processCoin : CoinFetchOutcome → Option TreemapEntry
  | CoinFetchOutcome.failure => none
  | CoinFetchOutcome.response success data =>
    if success = true ∧ 2 ≤ data.length then
      match data[data.length - 1]?, data[data.length - 2]? with
      | some latestData, some previousData =>
        some { id := latestData.id
               symbol := latestData.symbol
               name := latestData.name
               market_cap := latestData.market_cap
               current_price := latestData.price_usd
               price_change_percentage_24h :=
                 (latestData.price_usd - previousData.price_usd) / previousData.price_usd * 100
               last_updated := latestData.last_updated }
      | _, _ => none
    else none

/-- Stable insertion step of the descending sort used on `validCoins`. -/
def insertDescBy {α : Type} (key : α → ℚ) (x : α) : List α → List α
  | [] => [x]
  | y :: ys => if key y ≤ key x then x :: y :: ys else y :: insertDescBy key x ys

/-- Stable descending sort modelling `sort((a, b) => b.market_cap - a.market_cap)`. -/
def sortDescBy {α : Type} (key : α → ℚ) : List α → List α
  | [] => []
  | x :: xs => insertDescBy key x (sortDescBy key xs)

/-- Aggregation step of `fetchTreemapData`: map each coin outcome through
`processCoin`, keep the non-null results, and if any survive publish the
descending-by-market-cap top 50 via `setTreemapData`; with zero survivors
no setter runs and the previously published list stands. -/
def fetchTreemapData (outcomes : List CoinFetchOutcome)
    (treemapData : List TreemapEntry) : List TreemapEntry :=
  let validCoins := (outcomes.map processCoin).filterMap id
  if 0 < validCoins.length then
    (sortDescBy (fun e => e.market_cap) validCoins).take 50
  else treemapData

/-- Observable dashboard scheduler state for the 60s task: the loading
flag set by `refreshAllData`, the number of invocations still awaiting
their `Promise.all`, the cumulative count of fetch invocations issued,
and the price countdown. -/
structure SchedulerState where
  globalDataLoading : Bool
  runningRefreshes : ℕ
  fetchInvocations : ℕ
  priceCountdown : ℕ
deriving DecidableEq

/-- Entry of one `refreshAllData` invocation: sets the loading flag,
starts `fetchMinIOData`, `fetchRealTimeChartData` and `fetchTreemapData`
in parallel (3 fetch invocations), and resets the price countdown.  The
function reads no flag before doing so. -/
def refreshAllData (s : SchedulerState) : SchedulerState :=
  { globalDataLoading := true
    runningRefreshes := s.runningRefreshes + 1
    fetchInvocations := s.fetchInvocations + 3
    priceCountdown := 60 }

/-- One tick of `setInterval(refreshAllData, 60000)`: the interval
callback invokes `refreshAllData` unconditionally on every tick. -/
def dataIntervalTick (s : SchedulerState) : SchedulerState := refreshAllData s

/-- Completion of one `refreshAllData` invocation (the `finally` block):
clears the loading flag. -/
def refreshAllDataFinish (s : SchedulerState) : SchedulerState :=
  { s with globalDataLoading := false, runningRefreshes := s.runningRefreshes - 1 }

/-- Calendar date used by the two staleness checks. -/
structure SimpleDate where
  year : ℕ
  month : ℕ
  day : ℕ
deriving DecidableEq

/-- Candle dataset as held in `candleData`: its fetch date stamp
(`fetched_at`) and point count. -/
structure CandleDataset where
  fetched_at : SimpleDate
  data_points : ℕ
deriving DecidableEq

/-- Observable outcome of one `fetchCandleData` indicator fetch: the
request threw (caught), or the response succeeded with a dataset, or the
response reported failure / carried no data. -/
inductive CandleFetchOutcome where
  | networkThrow
  | successData (d : CandleDataset)
  | failedResult
deriving DecidableEq

/-- State transition of `fetchCandleData` on the stored `candleData`
value: success stores the new dataset; a failed result or a thrown error
executes `setCandleData(null)`, clearing the store. -/
def fetchCandleDataStep (candleData : Option CandleDataset) :
    CandleFetchOutcome → Option CandleDataset
  | CandleFetchOutcome.networkThrow => none
  | CandleFetchOutcome.successData d => some d
  | CandleFetchOutcome.failedResult => none

/-- Observable outcome of one `fetchForecastData` run: the MinIO read
succeeded; or it missed and generation succeeded; or generation returned
an unsuccessful body; or the generation response was not ok (no setter on
that path); or a fetch threw. -/
inductive ForecastFetchOutcome where
  | networkThrow
  | minioSuccess (d : ForecastData)
  | generateSuccess (d : ForecastData)
  | generateFailedResult
  | generateNotOk
deriving DecidableEq

/-- State transition of `fetchForecastData` on the stored `forecastData`
value: both success paths store the new forecast; a failed generation
body or a thrown error executes `setForecastData(null)`; a non-ok
generation response runs no setter, leaving the previous value. -/
def fetchForecastDataStep (forecastData : Option ForecastData) :
    ForecastFetchOutcome → Option ForecastData
  | ForecastFetchOutcome.networkThrow => none
  | ForecastFetchOutcome.minioSuccess d => some d
  | ForecastFetchOutcome.generateSuccess d => some d
  | ForecastFetchOutcome.generateFailedResult => none
  | ForecastFetchOutcome.generateNotOk => forecastData

/-- Dashboard state touched by the symbol-switch scenario: the selected
coin and the candle feed slots. -/
structure DashboardState where
  selectedCoin : String
  candleData : Option CandleDataset
  lastCandleFetchDate : String
deriving DecidableEq

/-- Events of the symbol-switch scenario.  `switchCoin` is the effect
hooked on `selectedCoin` (reset the candle slots for the new coin).
`candleFetchResolves coin d today` is the continuation of a
`fetchCandleData` call that was started while `coin` was selected and
resolves now: it runs `setCandleData(result.data)` and records the fetch
date, without comparing `coin` to the currently selected coin. -/
inductive DashboardEvent where
  | switchCoin (coin : String)
  | candleFetchResolves (coin : String) (d : CandleDataset) (today : String)
deriving DecidableEq

/-- One dashboard state transition per event, as wired in the component. -/
def stepDashboard (s : DashboardState) : DashboardEvent → DashboardState
  | DashboardEvent.switchCoin coin =>
    { selectedCoin := coin, candleData := none, lastCandleFetchDate := "" }
  | DashboardEvent.candleFetchResolves _ d today =>
    { s with candleData := some d, lastCandleFetchDate := today }

/-- Fold of a sequence of dashboard events. -/
def runDashboard (s : DashboardState) (events : List DashboardEvent) : DashboardState :=
  events.foldl stepDashboard s

/-- Daily staleness check `shouldUpdateCandleData`: stale when the stored
fetch-date string differs from the calendar-date string of today, or when
no candle data is held. -/
def shouldUpdateCandleData (lastCandleFetchDate : String)
    (candleData : Option CandleDataset) (today : String) : Bool :=
  lastCandleFetchDate != today || candleData.isNone

/-- The second, inline daily check at the top of `fetchCandleData`: update
when no data is held or when the day-of-month of the stored fetch date
differs from the day-of-month of today. -/
def fetchCandleNeedsUpdate (candleData : Option CandleDataset)
    (today : SimpleDate) : Bool :=
  match candleData with
  | none => true
  | some d => d.fetched_at.day != today.day

/-- Strict calendar order on dates. -/
def calendarEarlier (a b : SimpleDate) : Prop :=
  a.year < b.year ∨ (a.year = b.year ∧
    (a.month < b.month ∨ (a.month = b.month ∧ a.day < b.day)))

instance (a b : SimpleDate) : Decidable (calendarEarlier a b) := by
  unfold calendarEarlier
  infer_instance

/-- Example news payload of the news-only scenario: 8 positive, 1
negative, 1 neutral out of 10. -/
def exNewsData : NewsAnalysisData :=
  { total := 10, summary := { positive_count := 8, negative_count := 1, neutral_count := 1 } }

/-- Example signal votes: all four indicators bullish. -/
def exSignalVotes : SignalVotes :=
  { rsi_signal := "BUY", macd_signal := "BUY",
    moving_average_signal := "BUY", bollinger_signal := "BUY" }

/-- Example forecast: one prediction one hour ahead at price 110. -/
def exForecast : ForecastData :=
  { predictions := [{ minutes_ahead := 60, predicted_price := 110 }] }

/-- Example snapshot with current price 100. -/
def exCrypto : CryptoData :=
  { id := "bitcoin", symbol := "btc", name := "Bitcoin", current_price := 100,
    market_cap := 800, total_volume := 10, high_24h := 101, low_24h := 99,
    last_updated := "2024-01-15" }

/-- Example candle dataset fetched on Jan 15 2024. -/
def exCandle : CandleDataset := { fetched_at := ⟨2024, 1, 15⟩, data_points := 30 }

/-- Example forecast value held in the store before a failing refresh. -/
def exForecastPrev : ForecastData := { predictions := [] }

/-- Older of two historical points for the treemap example. -/
def exPointOld : CoinPoint :=
  { id := "bitcoin", symbol := "btc", name := "Bitcoin", market_cap := 800,
    price_usd := 1, last_updated := "d1" }

/-- Newer of two historical points for the treemap example. -/
def exPointNew : CoinPoint :=
  { id := "bitcoin", symbol := "btc", name := "Bitcoin", market_cap := 800,
    price_usd := 2, last_updated := "d2" }

/-- Example fan-out pass: one coin with two points, one failed coin. -/
def exOutcomes : List CoinFetchOutcome :=
  [CoinFetchOutcome.response true [exPointOld, exPointNew], CoinFetchOutcome.failure]

/-- Example previously published treemap entry. -/
def exEntry : TreemapEntry :=
  { id := "bitcoin", symbol := "btc", name := "Bitcoin", market_cap := 800,
    current_price := 2, price_change_percentage_24h := 0, last_updated := "d2" }

/-- Example scheduler state with one refresh invocation in flight. -/
def exSched : SchedulerState :=
  { globalDataLoading := true
    runningRefreshes := 1
    fetchInvocations := 3
    priceCountdown := 30 }

/-- Example dashboard state before the symbol switch. -/
def exDashStart : DashboardState :=
  { selectedCoin := "bitcoin", candleData := none, lastCandleFetchDate := "" }

/-- Rounding is bounded below by any integer lower bound of its argument. -/
theorem le_round_of_le {x : ℚ} {lo : ℤ} (h : (lo : ℚ) ≤ x) : lo ≤ round x := by
  rw [round_eq]
  exact Int.le_floor.mpr (by linarith)

/-- Rounding is bounded above by any integer upper bound of its argument. -/
theorem round_le_of_le {x : ℚ} {hi : ℤ} (h : x ≤ (hi : ℚ)) : round x ≤ hi := by
  rw [round_eq]
  have h2 : ⌊x + 1/2⌋ < hi + 1 := Int.floor_lt.mpr (by push_cast; linarith)
  omega

/-- The news sub-score lies in [0, 100] for valid count data. -/
theorem computeNewsScore_bounds (n : Option NewsAnalysisData) (hn : ValidNewsInput n) :
    0 ≤ (computeNewsScore n).1 ∧ (computeNewsScore n).1 ≤ 100 := by
  match n with
  | none => norm_num [computeNewsScore]
  | some nd =>
    obtain ⟨hp, hq⟩ := hn nd rfl
    by_cases ht : 0 < nd.total
    · have htq : (0 : ℚ) < (nd.total : ℚ) := by exact_mod_cast ht
      have hpr0 : (0 : ℚ) ≤ (nd.summary.positive_count : ℚ) / (nd.total : ℚ) :=
        div_nonneg (by positivity) htq.le
      have hpr1 : (nd.summary.positive_count : ℚ) / (nd.total : ℚ) ≤ 1 :=
        (div_le_one htq).mpr (by exact_mod_cast hp)
      have hnr0 : (0 : ℚ) ≤ (nd.summary.negative_count : ℚ) / (nd.total : ℚ) :=
        div_nonneg (by positivity) htq.le
      have hnr1 : (nd.summary.negative_count : ℚ) / (nd.total : ℚ) ≤ 1 :=
        (div_le_one htq).mpr (by exact_mod_cast hq)
      simp only [computeNewsScore, if_pos ht]
      split_ifs with h1 h2
      · constructor <;> linarith
      · constructor <;> linarith
      · push_neg at h1 h2
        constructor <;> linarith
    · norm_num [computeNewsScore, ht]

/-- The technical sub-score lies in [0, 100]. -/
theorem computeTechnicalScore_bounds (t : Option SignalVotes) :
    0 ≤ (computeTechnicalScore t).1 ∧ (computeTechnicalScore t).1 ≤ 100 := by
  match t with
  | none => norm_num [computeTechnicalScore]
  | some s =>
    by_cases h : 0 < bullishSignals s + bearishSignals s
    · have hq : (0 : ℚ) < ((bullishSignals s + bearishSignals s : ℕ) : ℚ) := by exact_mod_cast h
      have hb : ((bullishSignals s : ℕ) : ℚ) ≤ ((bullishSignals s + bearishSignals s : ℕ) : ℚ) := by
        exact_mod_cast Nat.le_add_right (bullishSignals s) (bearishSignals s)
      have hr0 : (0 : ℚ) ≤ (bullishSignals s : ℚ) / ((bullishSignals s + bearishSignals s : ℕ) : ℚ) :=
        div_nonneg (by positivity) hq.le
      have hr1 : (bullishSignals s : ℚ) / ((bullishSignals s + bearishSignals s : ℕ) : ℚ) ≤ 1 :=
        (div_le_one hq).mpr hb
      simp only [computeTechnicalScore, if_pos h]
      constructor <;> linarith
    · norm_num [computeTechnicalScore, h]

/-- The forecast sub-score lies in [0, 100]. -/
theorem computeForecastScore_bounds (f : Option ForecastData) (c : Option CryptoData) :
    0 ≤ (computeForecastScore f c).1 ∧ (computeForecastScore f c).1 ≤ 100 := by
  match f, c with
  | none, none => norm_num [computeForecastScore]
  | none, some cd => norm_num [computeForecastScore]
  | some fd, none => norm_num [computeForecastScore]
  | some fd, some cd =>
    rcases hfind : fd.predictions.find? (fun p => decide (p.minutes_ahead ≤ 1440)) with _ | p
    · norm_num [computeForecastScore, hfind]
    · simp only [computeForecastScore, hfind]
      set cp : ℚ := (p.predicted_price - cd.current_price) / cd.current_price * 100 with hcp
      split_ifs with h1 h2
      · have ha : min cp 25 ≤ 25 := min_le_right cp 25
        have hb : (0 : ℚ) ≤ min cp 25 := le_min (by linarith) (by norm_num)
        constructor <;> simp <;> linarith
      · have ha : -25 ≤ max cp (-25) := le_max_right cp (-25)
        have hb : max cp (-25) ≤ 0 := max_le (by linarith) (by norm_num)
        constructor <;> simp <;> linarith
      · push_neg at h1 h2
        constructor <;> simp <;> linarith

/-- The weighted overall score lies in [0, 100] for valid inputs. -/
theorem overallScore_bounds (n : Option NewsAnalysisData) (t : Option SignalVotes)
    (f : Option ForecastData) (c : Option CryptoData) (hn : ValidNewsInput n) :
    0 ≤ overallScore n t f c ∧ overallScore n t f c ≤ 100 := by
  obtain ⟨h1, h2⟩ := computeNewsScore_bounds n hn
  obtain ⟨h3, h4⟩ := computeTechnicalScore_bounds t
  obtain ⟨h5, h6⟩ := computeForecastScore_bounds f c
  unfold overallScore
  constructor <;> linarith

/-- Permutation property of the insertion step of the descending sort. -/
theorem insertDescBy_perm {α : Type} (key : α → ℚ) (x : α) (l : List α) :
    List.Perm (insertDescBy key x l) (x :: l) := by
  induction l with
  | nil => simp [insertDescBy]
  | cons y ys ih =>
    by_cases h : key y ≤ key x
    · simp [insertDescBy, h]
    · simp only [insertDescBy, if_neg h]
      exact (ih.cons y).trans (List.Perm.swap x y ys)

/-- The descending sort permutes its input. -/
theorem sortDescBy_perm {α : Type} (key : α → ℚ) (l : List α) :
    List.Perm (sortDescBy key l) l := by
  induction l with
  | nil => simp [sortDescBy]
  | cons x xs ih => exact (insertDescBy_perm key x (sortDescBy key xs)).trans (ih.cons x)

/-- Inserting into a descending-sorted list keeps it descending-sorted. -/
theorem insertDescBy_pairwise {α : Type} (key : α → ℚ) (x : α) (l : List α)
    (hl : List.Pairwise (fun a b => key b ≤ key a) l) :
    List.Pairwise (fun a b => key b ≤ key a) (insertDescBy key x l) := by
  induction l with
  | nil => simp [insertDescBy]
  | cons y ys ih =>
    rw [List.pairwise_cons] at hl
    obtain ⟨hy, hys⟩ := hl
    by_cases h : key y ≤ key x
    · simp only [insertDescBy, if_pos h, List.pairwise_cons]
      refine ⟨?_, hy, hys⟩
      intro z hz
      rcases List.mem_cons.mp hz with rfl | hz2
      · exact h
      · exact le_trans (hy z hz2) h
    · simp only [insertDescBy, if_neg h, List.pairwise_cons]
      refine ⟨?_, ih hys⟩
      intro z hz
      have hz2 := (insertDescBy_perm key x ys).mem_iff.mp hz
      rcases List.mem_cons.mp hz2 with rfl | hz3
      · exact le_of_lt (lt_of_not_le h)
      · exact hy z hz3

/-- The descending sort produces a descending-sorted list. -/
theorem sortDescBy_sorted {α : Type} (key : α → ℚ) (l : List α) :
    List.Pairwise (fun a b => key b ≤ key a) (sortDescBy key l) := by
  induction l with
  | nil => simp [sortDescBy]
  | cons x xs ih => exact insertDescBy_pairwise key x (sortDescBy key xs) ih

/-- C1: for every combination of recommendation inputs (news counts,
indicator votes, forecast, snapshot, each possibly absent) with valid
news counts and a positive current price when a snapshot is present, the
rounded breakdown sub-scores for news, technical and forecast each lie in
[0, 100] and the confidence lies in [0, 95], never reaching 100. -/
theorem recommendation_bounds (n : Option NewsAnalysisData) (t : Option SignalVotes)
    (f : Option ForecastData) (c : Option CryptoData)
    (hn : ValidNewsInput n) (hc : ValidSnapshotInput c) :
    (0 ≤ (calculateRecommendation n t f c).breakdown.news ∧
      (calculateRecommendation n t f c).breakdown.news ≤ 100) ∧
    (0 ≤ (calculateRecommendation n t f c).breakdown.technical ∧
      (calculateRecommendation n t f c).breakdown.technical ≤ 100) ∧
    (0 ≤ (calculateRecommendation n t f c).breakdown.forecast ∧
      (calculateRecommendation n t f c).breakdown.forecast ≤ 100) ∧
    (0 ≤ (calculateRecommendation n t f c).confidence ∧
      (calculateRecommendation n t f c).confidence ≤ 95) := by
  obtain ⟨hn0, hn1⟩ := computeNewsScore_bounds n hn
  obtain ⟨ht0, ht1⟩ := computeTechnicalScore_bounds t
  obtain ⟨hf0, hf1⟩ := computeForecastScore_bounds f c
  obtain ⟨ho0, ho1⟩ := overallScore_bounds n t f c hn
  have hbn : 0 ≤ (roundedBreakdown n t f c).news ∧ (roundedBreakdown n t f c).news ≤ 100 :=
    ⟨le_round_of_le (by exact_mod_cast hn0), round_le_of_le (by exact_mod_cast hn1)⟩
  have hbt : 0 ≤ (roundedBreakdown n t f c).technical ∧
      (roundedBreakdown n t f c).technical ≤ 100 :=
    ⟨le_round_of_le (by exact_mod_cast ht0), round_le_of_le (by exact_mod_cast ht1)⟩
  have hbf : 0 ≤ (roundedBreakdown n t f c).forecast ∧
      (roundedBreakdown n t f c).forecast ≤ 100 :=
    ⟨le_round_of_le (by exact_mod_cast hf0), round_le_of_le (by exact_mod_cast hf1)⟩
  unfold calculateRecommendation
  split_ifs with h1 h2
  · refine ⟨hbn, hbt, hbf, ?_, ?_⟩
    · exact le_round_of_le (by push_cast; exact le_min (by linarith) (by norm_num))
    · exact round_le_of_le (by push_cast; exact min_le_right _ _)
  · refine ⟨hbn, hbt, hbf, ?_, ?_⟩
    · exact le_round_of_le (by push_cast; exact le_min (by linarith) (by norm_num))
    · exact round_le_of_le (by push_cast; exact min_le_right _ _)
  · push_neg at h1 h2
    refine ⟨hbn, hbt, hbf, ?_, ?_⟩
    · exact le_round_of_le (by push_cast; positivity)
    · refine round_le_of_le ?_
      have habs : |50 - overallScore n t f c| ≤ 20 := abs_le.mpr ⟨by linarith, by linarith⟩
      push_cast
      linarith

/-- Witness for C1 at concrete present inputs. -/
theorem recommendation_bounds_witness :
    (0 ≤ (calculateRecommendation (some exNewsData) (some exSignalVotes) (some exForecast)
        (some exCrypto)).breakdown.news ∧
      (calculateRecommendation (some exNewsData) (some exSignalVotes) (some exForecast)
        (some exCrypto)).breakdown.news ≤ 100) ∧
    (0 ≤ (calculateRecommendation (some exNewsData) (some exSignalVotes) (some exForecast)
        (some exCrypto)).breakdown.technical ∧
      (calculateRecommendation (some exNewsData) (some exSignalVotes) (some exForecast)
        (some exCrypto)).breakdown.technical ≤ 100) ∧
    (0 ≤ (calculateRecommendation (some exNewsData) (some exSignalVotes) (some exForecast)
        (some exCrypto)).breakdown.forecast ∧
      (calculateRecommendation (some exNewsData) (some exSignalVotes) (some exForecast)
        (some exCrypto)).breakdown.forecast ≤ 100) ∧
    (0 ≤ (calculateRecommendation (some exNewsData) (some exSignalVotes) (some exForecast)
        (some exCrypto)).confidence ∧
      (calculateRecommendation (some exNewsData) (some exSignalVotes) (some exForecast)
        (some exCrypto)).confidence ≤ 95) :=
  recommendation_bounds (some exNewsData) (some exSignalVotes) (some exForecast) (some exCrypto)
    (by intro nd h; injection h with h2; subst h2; exact ⟨by decide, by decide⟩)
    (by intro cd h; injection h with h2; subst h2; norm_num [exCrypto])

/-- C2: the action is selected by first-match thresholds on the weighted
overall score (at least 70 gives BUY with confidence min(overall, 95); at
most 30 gives SELL with confidence min(100 - overall, 95); otherwise
NEUTRAL with confidence the doubled distance from 50), and the worked
example news=50, technical=100, forecast=85 gives overall 80.5, action
BUY and rounded confidence 81. -/
theorem recommendation_thresholds :
    (∀ n t f c,
      (overallScore n t f c ≥ 70 →
        (calculateRecommendation n t f c).action = Action.BUY ∧
        (calculateRecommendation n t f c).confidence =
          round (min (overallScore n t f c) 95)) ∧
      (overallScore n t f c ≤ 30 →
        (calculateRecommendation n t f c).action = Action.SELL ∧
        (calculateRecommendation n t f c).confidence =
          round (min (100 - overallScore n t f c) 95)) ∧
      (30 < overallScore n t f c → overallScore n t f c < 70 →
        (calculateRecommendation n t f c).action = Action.NEUTRAL ∧
        (calculateRecommendation n t f c).confidence =
          round (|50 - overallScore n t f c| * 2))) ∧
    (computeNewsScore none).1 = 50 ∧
    (computeTechnicalScore (some exSignalVotes)).1 = 100 ∧
    (computeForecastScore (some exForecast) (some exCrypto)).1 = 85 ∧
    overallScore none (some exSignalVotes) (some exForecast) (some exCrypto) = 161/2 ∧
    (calculateRecommendation none (some exSignalVotes) (some exForecast)
      (some exCrypto)).action = Action.BUY ∧
    (calculateRecommendation none (some exSignalVotes) (some exForecast)
      (some exCrypto)).confidence = 81 := by
  refine ⟨?_, rfl, ?_, ?_, ?_, ?_, ?_⟩
  · intro n t f c
    refine ⟨?_, ?_, ?_⟩
    · intro h
      unfold calculateRecommendation
      rw [if_pos h]
      exact ⟨rfl, rfl⟩
    · intro h
      have h1 : ¬ overallScore n t f c ≥ 70 := by linarith
      unfold calculateRecommendation
      rw [if_neg h1, if_pos h]
      exact ⟨rfl, rfl⟩
    · intro h30 h70
      have h1 : ¬ overallScore n t f c ≥ 70 := by linarith
      have h2 : ¬ overallScore n t f c ≤ 30 := by linarith
      unfold calculateRecommendation
      rw [if_neg h1, if_neg h2]
      exact ⟨rfl, rfl⟩
  · norm_num +decide [computeTechnicalScore, bullishSignals, bearishSignals, exSignalVotes]
  · norm_num [computeForecastScore, exForecast, exCrypto, List.find?]
  · norm_num +decide [overallScore, computeNewsScore, computeTechnicalScore,
      computeForecastScore, bullishSignals, bearishSignals, exSignalVotes, exForecast,
      exCrypto, List.find?]
  · norm_num +decide [calculateRecommendation, overallScore, computeNewsScore,
      computeTechnicalScore, computeForecastScore, bullishSignals, bearishSignals,
      exSignalVotes, exForecast, exCrypto, List.find?]
  · norm_num +decide [calculateRecommendation, overallScore, computeNewsScore,
      computeTechnicalScore, computeForecastScore, bullishSignals, bearishSignals,
      exSignalVotes, exForecast, exCrypto, List.find?, round_eq]

/-- Witness for C2: the BUY branch applied at the worked example. -/
theorem recommendation_thresholds_witness :
    (calculateRecommendation none (some exSignalVotes) (some exForecast)
      (some exCrypto)).action = Action.BUY ∧
    (calculateRecommendation none (some exSignalVotes) (some exForecast)
      (some exCrypto)).confidence =
      round (min (overallScore none (some exSignalVotes) (some exForecast) (some exCrypto)) 95) :=
  (recommendation_thresholds.1 none (some exSignalVotes) (some exForecast) (some exCrypto)).1
    (by rw [recommendation_thresholds.2.2.2.2.1]; norm_num)

/-- C3: the news sub-score follows the three ratio bands of the source,
defaults to 50 with the explanatory reason string when the feed is absent
or the total is zero, and evaluates to 95 on 8 positive of 10 total. -/
theorem news_score_rules :
    (∀ nd : NewsAnalysisData, 0 < nd.total →
      ((nd.summary.positive_count : ℚ) / (nd.total : ℚ) > 6/10 →
        (computeNewsScore (some nd)).1 =
          75 + (nd.summary.positive_count : ℚ) / (nd.total : ℚ) * 25) ∧
      (¬ (nd.summary.positive_count : ℚ) / (nd.total : ℚ) > 6/10 →
        (nd.summary.negative_count : ℚ) / (nd.total : ℚ) > 6/10 →
        (computeNewsScore (some nd)).1 =
          25 - (nd.summary.negative_count : ℚ) / (nd.total : ℚ) * 25) ∧
      (¬ (nd.summary.positive_count : ℚ) / (nd.total : ℚ) > 6/10 →
        ¬ (nd.summary.negative_count : ℚ) / (nd.total : ℚ) > 6/10 →
        (computeNewsScore (some nd)).1 =
          40 + ((nd.summary.positive_count : ℚ) / (nd.total : ℚ) -
            (nd.summary.negative_count : ℚ) / (nd.total : ℚ)) * 20)) ∧
    computeNewsScore none = (50, ["No recent news data available"]) ∧
    (∀ nd : NewsAnalysisData, nd.total = 0 →
      computeNewsScore (some nd) = (50, ["No recent news data available"])) ∧
    (computeNewsScore (some exNewsData)).1 = 95 := by
  refine ⟨?_, rfl, ?_, ?_⟩
  · intro nd ht
    refine ⟨?_, ?_, ?_⟩
    · intro h
      simp only [computeNewsScore, if_pos ht, if_pos h]
    · intro h1 h2
      simp only [computeNewsScore, if_pos ht, if_neg h1, if_pos h2]
    · intro h1 h2
      simp only [computeNewsScore, if_pos ht, if_neg h1, if_neg h2]
  · intro nd ht
    simp [computeNewsScore, ht]
  · norm_num [computeNewsScore, exNewsData]

/-- Witness for C3: the strongly-positive band at 8 of 10 positive. -/
theorem news_score_rules_witness :
    0 < exNewsData.total ∧
    (computeNewsScore (some exNewsData)).1 =
      75 + (exNewsData.summary.positive_count : ℚ) / (exNewsData.total : ℚ) * 25 :=
  ⟨by decide,
    (news_score_rules.1 exNewsData (by decide)).1 (by norm_num [exNewsData])⟩

/-- C4: in every universe refresh pass, a thrown per-coin fetch or a
response with fewer than 2 points maps to null and is excluded; each
surviving entry carries the 24h change computed from the two most recent
points of its own feed; and when a publication happens the ranked list is
the descending-by-market-cap sort truncated to at most 50 entries, never
padded, each entry originating from some coin outcome. -/
theorem treemap_refresh_correct :
    processCoin CoinFetchOutcome.failure = none ∧
    (∀ success data, ¬ 2 ≤ data.length →
      processCoin (CoinFetchOutcome.response success data) = none) ∧
    (∀ success data e, processCoin (CoinFetchOutcome.response success data) = some e →
      2 ≤ data.length ∧
      ∃ latestData previousData,
        data[data.length - 1]? = some latestData ∧
        data[data.length - 2]? = some previousData ∧
        e.price_change_percentage_24h =
          (latestData.price_usd - previousData.price_usd) / previousData.price_usd * 100 ∧
        e.market_cap = latestData.market_cap) ∧
    (∀ outcomes treemapData,
      0 < ((outcomes.map processCoin).filterMap id).length →
      fetchTreemapData outcomes treemapData =
        (sortDescBy (fun e => e.market_cap) ((outcomes.map processCoin).filterMap id)).take 50 ∧
      (fetchTreemapData outcomes treemapData).length =
        min 50 ((outcomes.map processCoin).filterMap id).length ∧
      (fetchTreemapData outcomes treemapData).length ≤ 50 ∧
      List.Pairwise (fun a b : TreemapEntry => b.market_cap ≤ a.market_cap)
        (fetchTreemapData outcomes treemapData) ∧
      ∀ e ∈ fetchTreemapData outcomes treemapData, ∃ o ∈ outcomes, processCoin o = some e) := by
  refine ⟨rfl, ?_, ?_, ?_⟩
  · intro success data h
    simp [processCoin, h]
  · intro success data e he
    by_cases hcond : success = true ∧ 2 ≤ data.length
    · obtain ⟨hs, hlen⟩ := hcond
      rcases hL : data[data.length - 1]? with _ | latestData
      · rw [List.getElem?_eq_none_iff] at hL
        omega
      · rcases hP : data[data.length - 2]? with _ | previousData
        · rw [List.getElem?_eq_none_iff] at hP
          omega
        · simp only [processCoin, if_pos (And.intro hs hlen), hL, hP,
            Option.some.injEq] at he
          refine ⟨hlen, latestData, previousData, rfl, rfl, ?_, ?_⟩
          · rw [← he]
          · rw [← he]
    · simp [processCoin, hcond] at he
  · intro outcomes treemapData hpos
    have heq : fetchTreemapData outcomes treemapData =
        (sortDescBy (fun e => e.market_cap) ((outcomes.map processCoin).filterMap id)).take 50 := by
      simp only [fetchTreemapData]
      rw [if_pos hpos]
    refine ⟨heq, ?_, ?_, ?_, ?_⟩
    · rw [heq, List.length_take, List.Perm.length_eq
        (sortDescBy_perm (fun e : TreemapEntry => e.market_cap)
          ((outcomes.map processCoin).filterMap id))]
    · rw [heq, List.length_take]
      omega
    · rw [heq]
      exact List.Pairwise.sublist (List.take_sublist 50 _)
        (sortDescBy_sorted (fun e : TreemapEntry => e.market_cap)
          ((outcomes.map processCoin).filterMap id))
    · intro e he
      rw [heq] at he
      have h1 : e ∈ sortDescBy (fun x : TreemapEntry => x.market_cap)
          ((outcomes.map processCoin).filterMap id) := List.take_subset 50 _ he
      have h2 : e ∈ (outcomes.map processCoin).filterMap id :=
        (sortDescBy_perm (fun x : TreemapEntry => x.market_cap)
          ((outcomes.map processCoin).filterMap id)).mem_iff.mp h1
      rw [List.mem_filterMap] at h2
      obtain ⟨a, ha, hae⟩ := h2
      rw [List.mem_map] at ha
      obtain ⟨o, ho, rfl⟩ := ha
      exact ⟨o, ho, hae⟩

/-- Witness for C4: a pass of one succeeding coin and one failed coin. -/
theorem treemap_refresh_correct_witness :
    fetchTreemapData exOutcomes [] =
      (sortDescBy (fun e => e.market_cap) ((exOutcomes.map processCoin).filterMap id)).take 50 ∧
    (fetchTreemapData exOutcomes []).length ≤ 50 :=
  ⟨(treemap_refresh_correct.2.2.2 exOutcomes [] (by decide)).1,
    (treemap_refresh_correct.2.2.2 exOutcomes [] (by decide)).2.2.1⟩

/-- C5 counterexample: with one refreshAllData invocation still running
(the loading flag is set and one invocation awaits its fetches), the next
data-interval tick is not skipped: it issues 3 further fetch invocations
and produces a second overlapping invocation. -/
theorem scheduler_tick_overlap_cex :
    ¬ ((dataIntervalTick exSched).fetchInvocations = 3 ∧
        (dataIntervalTick exSched).runningRefreshes ≤ 1) := by
  decide

/-- C5 amended: the interval callback carries no in-flight guard: every
tick invokes refreshAllData regardless of the in-flight state, adding 3
fetch invocations and one more concurrently running invocation, so
overlapping invocations of the same task occur whenever a tick arrives
before the prior invocation completes. -/
theorem scheduler_tick_always_runs (s : SchedulerState) :
    (dataIntervalTick s).fetchInvocations = s.fetchInvocations + 3 ∧
    (dataIntervalTick s).runningRefreshes = s.runningRefreshes + 1 ∧
    (dataIntervalTick s).globalDataLoading = true :=
  ⟨rfl, rfl, rfl⟩

/-- C6 counterexample: a thrown fetch inside the candle task, and inside
the forecast task, does not retain the previous store value: both error
handlers clear the stored value to null. -/
theorem fetch_failure_clears_state_cex :
    ¬ (fetchCandleDataStep (some exCandle) CandleFetchOutcome.networkThrow = some exCandle) ∧
    ¬ (fetchForecastDataStep (some exForecastPrev) ForecastFetchOutcome.networkThrow =
        some exForecastPrev) := by
  decide

/-- C6 amended: a failed fetch inside the candle or forecast task is
caught (the step functions are total, so no error escapes and later ticks
still run), but a thrown error or a failed result body clears the stored
feed value to null instead of retaining it; only the non-ok generation
response path of the forecast task leaves the previous value in place,
and the success paths store the new value. -/
theorem fetch_failure_behavior (cd : Option CandleDataset) (fd : Option ForecastData)
    (d : CandleDataset) (d2 : ForecastData) :
    fetchCandleDataStep cd CandleFetchOutcome.networkThrow = none ∧
    fetchCandleDataStep cd CandleFetchOutcome.failedResult = none ∧
    fetchCandleDataStep cd (CandleFetchOutcome.successData d) = some d ∧
    fetchForecastDataStep fd ForecastFetchOutcome.networkThrow = none ∧
    fetchForecastDataStep fd ForecastFetchOutcome.generateFailedResult = none ∧
    fetchForecastDataStep fd ForecastFetchOutcome.generateNotOk = fd ∧
    fetchForecastDataStep fd (ForecastFetchOutcome.minioSuccess d2) = some d2 ∧
    fetchForecastDataStep fd (ForecastFetchOutcome.generateSuccess d2) = some d2 :=
  ⟨rfl, rfl, rfl, rfl, rfl, rfl, rfl, rfl⟩

/-- C7 counterexample: a candle fetch started while bitcoin was selected
resolves after the switch to ethereum, and its result is written into the
store while ethereum is active. -/
theorem symbol_switch_late_write_cex :
    (runDashboard exDashStart
      [DashboardEvent.switchCoin "ethereum",
        DashboardEvent.candleFetchResolves "bitcoin" exCandle "Mon Jan 15 2024"]).selectedCoin =
      "ethereum" ∧
    (runDashboard exDashStart
      [DashboardEvent.switchCoin "ethereum",
        DashboardEvent.candleFetchResolves "bitcoin" exCandle "Mon Jan 15 2024"]).candleData =
      some exCandle := by
  decide

/-- C7 amended: outstanding fetches are not cancelled and their writes are
not guarded by the currently selected coin: after switching from coin a to
a different coin b, a late-resolving candle fetch for a still writes its
result into the store while b is active (the switch itself only clears the
slots at switch time). -/
theorem symbol_switch_late_write (s : DashboardState) (a b : String)
    (d : CandleDataset) (today : String) (hab : a ≠ b) :
    (runDashboard s [DashboardEvent.switchCoin b,
        DashboardEvent.candleFetchResolves a d today]).selectedCoin = b ∧
    (runDashboard s [DashboardEvent.switchCoin b,
        DashboardEvent.candleFetchResolves a d today]).candleData = some d :=
  ⟨rfl, rfl⟩

/-- Witness for the C7 amended theorem at the concrete switch scenario. -/
theorem symbol_switch_late_write_witness :
    (runDashboard exDashStart
      [DashboardEvent.switchCoin "ethereum",
        DashboardEvent.candleFetchResolves "bitcoin" exCandle "Tue Jan 16 2024"]).selectedCoin =
      "ethereum" ∧
    (runDashboard exDashStart
      [DashboardEvent.switchCoin "ethereum",
        DashboardEvent.candleFetchResolves "bitcoin" exCandle "Tue Jan 16 2024"]).candleData =
      some exCandle :=
  symbol_switch_late_write exDashStart
    "bitcoin" "ethereum" exCandle "Tue Jan 16 2024" (by decide)

/-- C8: shouldUpdateCandleData is true exactly when the candle data is
absent or the stored fetch-date string differs from today (calendar-date
equality, not a rolling window), and false exactly otherwise; being a
pure function of its arguments, repeated calls with unchanged inputs
return the same value. -/
theorem candle_staleness_policy (lastCandleFetchDate : String)
    (candleData : Option CandleDataset) (today : String) :
    (shouldUpdateCandleData lastCandleFetchDate candleData today = true ↔
      candleData = none ∨ lastCandleFetchDate ≠ today) ∧
    (shouldUpdateCandleData lastCandleFetchDate candleData today = false ↔
      candleData ≠ none ∧ lastCandleFetchDate = today) := by
  unfold shouldUpdateCandleData
  constructor
  · cases candleData <;> by_cases h : lastCandleFetchDate = today <;> simp [h]
  · cases candleData <;> by_cases h : lastCandleFetchDate = today <;> simp [h]

/-- Witness for C8: an absent dataset and a stale date-string are both
reported stale; matching date with data present is reported fresh. -/
theorem candle_staleness_policy_witness :
    shouldUpdateCandleData "Mon Jan 15 2024" (some exCandle) "Tue Jan 16 2024" = true ∧
    shouldUpdateCandleData "Tue Jan 16 2024" none "Tue Jan 16 2024" = true ∧
    shouldUpdateCandleData "Tue Jan 16 2024" (some exCandle) "Tue Jan 16 2024" = false :=
  ⟨(candle_staleness_policy "Mon Jan 15 2024" (some exCandle) "Tue Jan 16 2024").1.mpr
      (Or.inr (by decide)),
    (candle_staleness_policy "Tue Jan 16 2024" none "Tue Jan 16 2024").1.mpr (Or.inl rfl),
    (candle_staleness_policy "Tue Jan 16 2024" (some exCandle) "Tue Jan 16 2024").2.mpr
      ⟨by decide, rfl⟩⟩

/-- C9: the two coexisting daily staleness checks disagree across a month
boundary: for a dataset fetched Jan 15 2024 with today Feb 15 2024 (an
earlier calendar day with the same day-of-month), the calendar-date-string
check of shouldUpdateCandleData reports stale while the day-of-month check
inside fetchCandleData reports fresh.  The string arguments are the
toDateString renderings of the two dates. -/
theorem staleness_checks_disagree :
    calendarEarlier ⟨2024, 1, 15⟩ ⟨2024, 2, 15⟩ ∧
    (⟨2024, 1, 15⟩ : SimpleDate).day = (⟨2024, 2, 15⟩ : SimpleDate).day ∧
    shouldUpdateCandleData "Mon Jan 15 2024" (some exCandle) "Thu Feb 15 2024" = true ∧
    fetchCandleNeedsUpdate (some exCandle) ⟨2024, 2, 15⟩ = false := by
  decide

/-- C10: a refresh pass in which no coin survives runs no setter and
leaves the previously published ranking unchanged; a pass with at least
one survivor overwrites the published ranking with the new sorted and
truncated list. -/
theorem treemap_retained_on_total_failure (outcomes : List CoinFetchOutcome)
    (treemapData : List TreemapEntry) :
    ((∀ o ∈ outcomes, processCoin o = none) →
      fetchTreemapData outcomes treemapData = treemapData) ∧
    (0 < ((outcomes.map processCoin).filterMap id).length →
      fetchTreemapData outcomes treemapData =
        (sortDescBy (fun e => e.market_cap)
          ((outcomes.map processCoin).filterMap id)).take 50) := by
  constructor
  · intro hall
    have hnil : (outcomes.map processCoin).filterMap id = [] := by
      rw [List.filterMap_eq_nil_iff]
      intro a ha
      rw [List.mem_map] at ha
      obtain ⟨o, ho, rfl⟩ := ha
      exact hall o ho
    simp [fetchTreemapData, hnil]
  · intro hpos
    simp only [fetchTreemapData]
    rw [if_pos hpos]

/-- Witness for C10: a pass of a thrown coin and an unsuccessful response
leaves the previously published single-entry ranking in place. -/
theorem treemap_retained_witness :
    fetchTreemapData [CoinFetchOutcome.failure, CoinFetchOutcome.response false []]
      [exEntry] = [exEntry] :=
  (treemap_retained_on_total_failure
    [CoinFetchOutcome.failure, CoinFetchOutcome.response false []] [exEntry]).1 (by decide)

end CryptoDash
